import Mathlib

/-!
Verification of the workflow routing engine of the Academic-Staff-Service-Request
repository, shallowly embedded from `src/server/routes.ts` (the later
`registerRoutes` generation, lines 1395-1765 and the helper
`determineNextApprover` at lines 916-952) together with the Mongo-backed
storage layer (`MongoStorage`).

Modelling conventions:
* Mongoose queries (`findOne`) over a collection are embedded as `List.find?`
  over a list held in an `Env` record (directory order = list order).
* JavaScript falsiness of the values that actually flow here (null/undefined,
  and the empty string) is modelled explicitly where the source relies on it.
* `determineNextApprover` is dynamically typed in the source: its `sys_admin`
  branch returns a whole user document while the other branches return an id
  string or null.  The sum type `ApproverVal` keeps the three possibilities
  apart.
* Dates are abstracted to a `Nat` tick supplied by the caller (`now`).
-/

namespace Asr

/-- Role strings, from USER_ROLES in `src/shared/schema.ts`. -/
def ACADEMIC_STAFF : String := "academic_staff"

def ADMIN_OFFICER : String := "admin_officer"

def DEAN : String := "dean"

def REGISTRAR : String := "registrar"

def SYS_ADMIN : String := "sys_admin"

/-- Request status values, from REQUEST_STATUS in `src/shared/schema.ts`. -/
inductive ReqStatus where
  | draft
  | submitted
  | pending
  | approved
  | rejected
  | modificationRequested
  | cancelled
  | completed
deriving DecidableEq, Repr

/-- Valid request types (REQUEST_TYPES in `src/shared/schema.ts`). -/
def REQUEST_TYPES : List String :=
  ["leave", "conference_training", "resource_requisition", "generic"]

/-- Valid leave types (LEAVE_TYPES in `src/shared/schema.ts`). -/
def LEAVE_TYPES : List String :=
  ["annual", "sick", "compassionate", "casual", "study"]

/-- A user document from the organizational directory. -/
structure UserT where
  id : String
  role : String
  faculty : Option String := none
  departmentId : Option String := none
  fullName : String := ""
deriving DecidableEq, Repr

/-- A department document. -/
structure Department where
  id : String
  name : String := ""
  faculty : Option String := none
  hodId : Option String := none
deriving DecidableEq, Repr

/-- One stage of a workflow configuration. -/
structure Stage where
  role : String
  label : String := ""
deriving DecidableEq, Repr

/-- A workflow configuration document. -/
structure WorkflowConfig where
  id : String
  requestType : String
  departmentId : Option String := none
  stages : List Stage
deriving DecidableEq, Repr

/-- The value held by an approver slot.  JavaScript is untyped, so the
source can place an id string, a whole user document (the `sys_admin` branch
of `determineNextApprover`, routes.ts:946), or null/undefined there. -/
inductive ApproverVal where
  | null
  | idOf (s : String)
  | userRec (u : UserT)
deriving DecidableEq, Repr

/-- JavaScript truthiness of an approver slot: null/undefined and the empty
string are falsy, a non-empty id string and any object are truthy. -/
def ApproverVal.truthy : ApproverVal → Bool
  | .null => false
  | .idOf s => s != ""
  | .userRec _ => true

/-- The comparison `request.currentApproverId !== user.id` (routes.ts:1604):
only an id string can be strictly equal to the id string of the user. -/
def approverMatches (a : ApproverVal) (uid : String) : Bool :=
  match a with
  | .idOf s => s == uid
  | _ => false

/-- A request record (the fields the engine reads and writes). -/
structure Request where
  id : String
  requestType : String
  title : String := ""
  description : String := ""
  status : ReqStatus
  requestorId : String
  departmentId : Option String := none
  currentApproverId : ApproverVal := .null
  workflowStage : Nat := 0
  submittedAt : Option Nat := none
  completedAt : Option Nat := none
deriving DecidableEq, Repr

/-- A timeline entry appended by the engine. -/
structure TimelineEntry where
  requestId : String
  userId : String
  action : String
  comment : Option String := none
deriving DecidableEq, Repr

/-- A notification created by the engine; `userId` is the recipient. -/
structure Notification where
  userId : String
  requestId : String
  ntype : String
  title : String
deriving DecidableEq, Repr

/-- The read-only collaborators of the engine: users, departments and
workflow configurations, each in directory order. -/
structure Env where
  users : List UserT
  departments : List Department
  configs : List WorkflowConfig
deriving Repr

/-- MongoStorage.findUserByRole / getUserByRole: `User.findOne({ role })`. -/
def findUserByRole (users : List UserT) (role : String) : Option UserT :=
  users.find? (fun u => u.role == role)

/-- MongoStorage.getUserByRoleAndFaculty: `User.findOne({ role, faculty })`. -/
def getUserByRoleAndFaculty (users : List UserT) (role : String)
    (faculty : Option String) : Option UserT :=
  users.find? (fun u => u.role == role && u.faculty == faculty)

/-- MongoStorage.getDepartment: `Department.findById(id)`. -/
def getDepartment (env : Env) (id : String) : Option Department :=
  env.departments.find? (fun d => d.id == id)

/-- MongoStorage.getUser: `User.findById(id)`. -/
def getUser (env : Env) (id : String) : Option UserT :=
  env.users.find? (fun u => u.id == id)

/-- MongoStorage.getWorkflowConfig:
`WorkflowConfig.findOne({ requestType, departmentId })`; an absent
`departmentId` argument matches configurations without a department. -/
def getWorkflowConfig (configs : List WorkflowConfig) (requestType : String)
    (departmentId : Option String) : Option WorkflowConfig :=
  configs.find? (fun c => c.requestType == requestType && c.departmentId == departmentId)

/-- The check `s.trim().length === 0` of the source: a string trims to the
empty string exactly when every character is whitespace.  Rendered without
`String.trim` (whose implementation is not kernel-reducible) so that
concrete instances evaluate. -/
def strBlank (s : String) : Bool :=
  s.data.all Char.isWhitespace

/-- Lift a user lookup to the id-or-null shape `u?.id || null` used by the
source (an empty id string is falsy in JavaScript). -/
def idOrNull : Option UserT → ApproverVal
  | some u => if u.id == "" then .null else .idOf u.id
  | none => .null

/-- Helper `determineNextApprover(role, department)` of routes.ts:916-952.
The guard `if (!department) return null` comes first; then a switch on the
role string.  The `admin_officer` branch prefers `department.hodId`; the
`dean` branch falls back from faculty dean to any dean to any sys admin; the
`registrar` branch falls back to any sys admin; the `sys_admin` branch
returns the user document itself (not its id, routes.ts:946); the default
branch falls back to any sys admin. -/
def determineNextApprover (env : Env) (role : String)
    (dept : Option Department) : ApproverVal :=
  match dept with
  | none => .null
  | some department =>
    if role == ADMIN_OFFICER then
      match department.hodId with
      | some h => if h == "" then idOrNull (findUserByRole env.users ADMIN_OFFICER) else .idOf h
      | none => idOrNull (findUserByRole env.users ADMIN_OFFICER)
    else if role == DEAN then
      idOrNull
        (match getUserByRoleAndFaculty env.users DEAN department.faculty with
         | some d => some d
         | none =>
           match findUserByRole env.users DEAN with
           | some d => some d
           | none => findUserByRole env.users SYS_ADMIN)
    else if role == REGISTRAR then
      idOrNull
        (match findUserByRole env.users REGISTRAR with
         | some r => some r
         | none => findUserByRole env.users SYS_ADMIN)
    else if role == SYS_ADMIN then
      match findUserByRole env.users SYS_ADMIN with
      | some u => .userRec u
      | none => .null
    else
      idOrNull (findUserByRole env.users SYS_ADMIN)

/-- First-approver resolution inlined in the POST /api/requests handler
(routes.ts:1434-1456).  Unlike `determineNextApprover`, no branch here falls
back to a sys admin, and the dean branch does not even fall back to an
arbitrary dean. -/
def firstApproverId (env : Env) (department : Department) (role : String) :
    ApproverVal :=
  if role == ADMIN_OFFICER then
    match department.hodId with
    | some h => if h == "" then idOrNull (findUserByRole env.users ADMIN_OFFICER) else .idOf h
    | none => idOrNull (findUserByRole env.users ADMIN_OFFICER)
  else if role == DEAN then
    idOrNull (getUserByRoleAndFaculty env.users DEAN department.faculty)
  else if role == REGISTRAR then
    idOrNull (findUserByRole env.users REGISTRAR)
  else
    idOrNull (findUserByRole env.users role)

/-- Two-level workflow lookup used by both handlers: the department-specific
configuration if one exists, else the default (no-department) one
(routes.ts:1423-1427 and 1623-1627). -/
def resolveWorkflow (env : Env) (requestType : String)
    (departmentId : Option String) : Option WorkflowConfig :=
  match getWorkflowConfig env.configs requestType departmentId with
  | some w => some w
  | none => getWorkflowConfig env.configs requestType none

/-- The department re-read from the snapshotted `departmentId` of the request,
bound as `requestorDepartment` in the action handler (routes.ts:1622). -/
def requestorDeptOf (env : Env) (request : Request) : Option Department :=
  request.departmentId.bind (getDepartment env)

/-- Workflow resolution as the action handler performs it for a given
request: the department is re-read from the snapshotted
`departmentId` of the request, and its id (absent when the lookup fails) keys the
two-level workflow lookup (routes.ts:1622-1627). -/
def resolveWorkflowFor (env : Env) (request : Request) : Option WorkflowConfig :=
  resolveWorkflow env request.requestType
    ((requestorDeptOf env request).map Department.id)

/-- Error kinds surfaced by the two handlers (spec section 7 taxonomy; note
the source has no ConcurrentModification path at all). -/
inductive ErrKind where
  | validationError
  | departmentNotFound
  | noWorkflowConfigured
  | noApproverResolvable
  | invalidAction
  | commentRequired
  | requestNotFound
  | alreadyFinalized
  | notAuthorizedApprover
deriving DecidableEq, Repr

/-- The submission payload of POST /api/requests (the fields the handler
validates). -/
structure Submission where
  requestType : String
  title : String
  description : String
  leaveType : Option String := none
  startDate : Option Nat := none
  endDate : Option Nat := none
  substituteStaffName : Option String := none
  eventName : Option String := none
  eventDates : Option String := none
  itemList : Option (List String) := none
deriving DecidableEq, Repr

/-- Type-specific payload validation of POST /api/requests
(routes.ts:1476-1510); it runs after workflow and approver resolution. -/
def payloadValid (sub : Submission) : Bool :=
  if sub.requestType == "leave" then
    (match sub.leaveType with
     | some lt => LEAVE_TYPES.contains lt
     | none => false)
    && sub.startDate.isSome && sub.endDate.isSome
    && (match sub.substituteStaffName with
        | some n => !strBlank n
        | none => false)
  else if sub.requestType == "conference_training" then
    (match sub.eventName with
     | some n => !strBlank n
     | none => false)
    && (match sub.eventDates with
        | some d => !strBlank d
        | none => false)
  else if sub.requestType == "resource_requisition" then
    (match sub.itemList with
     | some l => !l.isEmpty
     | none => false)
  else
    true

/-- The successful outcome of request creation: the persisted request plus
the side effects written after it. -/
structure CreateResult where
  request : Request
  timeline : List TimelineEntry
  notifications : List Notification
deriving DecidableEq, Repr

/-- The POST /api/requests handler (routes.ts:1395-1573) as a function of
its inputs.  Checks appear in source order: request type, title and
description validation; department lookup; two-level workflow resolution
with the empty-stages guard; first-approver resolution; type-specific
payload validation; then the request record is created with status
`pending`, stage 0, the resolved approver and `submittedAt = now`, one
timeline entry is appended, and one notification is created for the
approver provided their user record exists (routes.ts:1551-1565). -/
def createRequest (env : Env) (user : UserT) (sub : Submission)
    (newId : String) (now : Nat) : Except ErrKind CreateResult :=
  if !REQUEST_TYPES.contains sub.requestType then .error .validationError
  else if strBlank sub.title then .error .validationError
  else if strBlank sub.description then .error .validationError
  else
    match user.departmentId.bind (getDepartment env) with
    | none => .error .departmentNotFound
    | some department =>
      match resolveWorkflow env sub.requestType (some department.id) with
      | none => .error .noWorkflowConfigured
      | some workflow =>
        match workflow.stages with
        | [] => .error .noWorkflowConfigured
        | firstStage :: _ =>
          match firstApproverId env department firstStage.role with
          | .idOf approverId =>
            if !payloadValid sub then .error .validationError
            else
              let req : Request :=
                { id := newId
                  requestType := sub.requestType
                  title := sub.title
                  description := sub.description
                  status := .pending
                  requestorId := user.id
                  departmentId := user.departmentId
                  currentApproverId := .idOf approverId
                  workflowStage := 0
                  submittedAt := some now
                  completedAt := none }
              let tl : List TimelineEntry :=
                [{ requestId := newId, userId := user.id,
                   action := "Request created and submitted" }]
              let notifs : List Notification :=
                match getUser env approverId with
                | some _ =>
                  [{ userId := approverId, requestId := newId,
                     ntype := "assignment",
                     title := "New Request Assigned for Review" }]
                | none => []
              .ok { request := req, timeline := tl, notifications := notifs }
          | _ => .error .noApproverResolvable

/-- The three accepted action strings (routes.ts:1583). -/
def ACTIONS : List String := ["approve", "reject", "request_modification"]

/-- The already-processed guard of routes.ts:1599.  Note the source list
omits the `cancelled` status. -/
def isTerminalChecked (s : ReqStatus) : Bool :=
  s == .approved || s == .rejected || s == .completed

/-- The data the action handler passes to `storage.updateRequest`
(routes.ts:1687-1692) together with the timeline action text. -/
structure UpdateData where
  status : ReqStatus
  currentApproverId : ApproverVal
  workflowStage : Nat
  completedAt : Option Nat
  timelineAction : String
deriving DecidableEq, Repr

/-- Next-approver determination of the approve branch (routes.ts:1644-1659):
the result of `determineNextApprover` when truthy, otherwise any sys admin
as a final fallback, otherwise the handler rejects. -/
def advanceApprover (env : Env) (request : Request) (nextStage : Stage) :
    Except ErrKind ApproverVal :=
  if (determineNextApprover env nextStage.role (requestorDeptOf env request)).truthy then
    .ok (determineNextApprover env nextStage.role (requestorDeptOf env request))
  else
    match findUserByRole env.users SYS_ADMIN with
    | some sysAdmin => .ok (.idOf sysAdmin.id)
    | none => .error .noApproverResolvable

/-- The validation and transition computation of the POST
/api/requests/:id/action handler (routes.ts:1580-1684), up to the point
where `storage.updateRequest` is called.  Checks in source order: action
validity; comment requirement for reject/request_modification; the
already-processed guard; the current-approver authorization; workflow
resolution with the empty-stages guard; then the per-action branch.  In the
approve branch the bound check `nextStageIndex < stages.length` together
with the indexing is rendered as a match on `stages[nextStageIndex]?`. -/
def computeAction (env : Env) (request : Request) (user : UserT)
    (action : String) (comment : String) (now : Nat) :
    Except ErrKind UpdateData :=
  if !ACTIONS.contains action then .error .invalidAction
  else if (action == "reject" || action == "request_modification")
      && strBlank comment then .error .commentRequired
  else if isTerminalChecked request.status then .error .alreadyFinalized
  else if !approverMatches request.currentApproverId user.id then
    .error .notAuthorizedApprover
  else
    match resolveWorkflow env request.requestType
        ((requestorDeptOf env request).map Department.id) with
    | none => .error .noWorkflowConfigured
    | some workflow =>
      if workflow.stages.isEmpty then .error .noWorkflowConfigured
      else if action == "approve" then
        match workflow.stages[request.workflowStage + 1]? with
        | some nextStage =>
          match advanceApprover env request nextStage with
          | .error e => .error e
          | .ok a =>
            .ok { status := .pending
                  currentApproverId := a
                  workflowStage := request.workflowStage + 1
                  completedAt := none
                  timelineAction :=
                    "Request approved by " ++ user.fullName ++
                      ", forwarded to " ++ nextStage.role }
        | none =>
          .ok { status := .approved
                currentApproverId := .null
                workflowStage := request.workflowStage
                completedAt := some now
                timelineAction := "Request fully approved" }
      else if action == "reject" then
        .ok { status := .rejected
              currentApproverId := .null
              workflowStage := request.workflowStage
              completedAt := some now
              timelineAction := "Request rejected" }
      else
        .ok { status := .modificationRequested
              currentApproverId := .idOf request.requestorId
              workflowStage := request.workflowStage
              completedAt := none
              timelineAction := "Modification requested" }

/-- Apply the computed update to a request record, as
`MongoStorage.updateRequest` does field-wise (part_003:300-303). -/
def applyUpdate (request : Request) (d : UpdateData) : Request :=
  { request with
    status := d.status
    currentApproverId := d.currentApproverId
    workflowStage := d.workflowStage
    completedAt := d.completedAt }

/-- The successful outcome of an action: the updated request plus the
timeline entry and notifications written after the update. -/
structure ActionResult where
  updated : Request
  timeline : List TimelineEntry
  notifications : List Notification
deriving DecidableEq, Repr

/-- Side effects of the action handler after a successful update
(routes.ts:1698-1750): exactly one timeline entry; one notification whose
recipient is the requestor, created only when the user record of the requestor
exists (routes.ts:1723-1738); and in the request_modification case one
additional bounce-back notification to the acting approver
(routes.ts:1741-1750). -/
def actionEffects (env : Env) (request : Request) (user : UserT)
    (action : String) (comment : String) (d : UpdateData) : ActionResult :=
  let tl : List TimelineEntry :=
    [{ requestId := request.id, userId := user.id,
       action := d.timelineAction,
       comment := if comment == "" then none else some comment }]
  let requestorNotifs : List Notification :=
    match getUser env request.requestorId with
    | some _ =>
      [{ userId := request.requestorId, requestId := request.id,
         ntype := action,
         title := if action == "approve" then "Request Approved"
                  else if action == "reject" then "Request Rejected"
                  else "Request Modification Requested" }]
    | none => []
  let bounce : List Notification :=
    if action == "request_modification" then
      [{ userId := user.id, requestId := request.id, ntype := action,
         title := "Request Returned for Modification" }]
    else []
  { updated := applyUpdate request d
    timeline := tl
    notifications := requestorNotifs ++ bounce }

/-- The POST /api/requests/:id/action handler on an already-fetched request
record: validation and transition computation followed by the update and
its side effects. -/
def applyAction (env : Env) (request : Request) (user : UserT)
    (action : String) (comment : String) (now : Nat) :
    Except ErrKind ActionResult :=
  match computeAction env request user action comment now with
  | .error e => .error e
  | .ok d => .ok (actionEffects env request user action comment d)

/-- The mutable persistent state touched by the engine. -/
structure Store where
  requests : List Request
  timeline : List TimelineEntry
  notifications : List Notification
deriving DecidableEq, Repr

/-- MongoStorage.getRequest: `Request.findById(id)`. -/
def getRequest (store : Store) (id : String) : Option Request :=
  store.requests.find? (fun r => r.id == id)

/-- MongoStorage.updateRequest (part_003:300-303):
`Request.findByIdAndUpdate(id, data)` — the update is keyed on the id only
and is unconditional: it does not compare the stored `currentApproverId` or
`workflowStage` against anything that was previously read. -/
def updateRequest (store : Store) (id : String) (d : UpdateData) : Store :=
  { store with
    requests := store.requests.map (fun r => if r.id == id then applyUpdate r d else r) }

/-- The POST /api/requests handler at store level: every error path returns
before `storage.createRequest` (routes.ts:1512), so on error nothing at all
is written; on success the request, its timeline entry and the approver
notification are appended. -/
def handleCreate (env : Env) (store : Store) (user : UserT)
    (sub : Submission) (newId : String) (now : Nat) :
    Store × Except ErrKind Request :=
  match createRequest env user sub newId now with
  | .error e => (store, .error e)
  | .ok res =>
    ({ requests := store.requests ++ [res.request]
       timeline := store.timeline ++ res.timeline
       notifications := store.notifications ++ res.notifications },
     .ok res.request)

/-- The POST /api/requests/:id/action handler at store level: the request is
read (routes.ts:1592), the validation and transition computation runs, and
every error path returns before `storage.updateRequest` (routes.ts:1687), so
on error the store is untouched. -/
def handleAction (env : Env) (store : Store) (reqId : String) (user : UserT)
    (action : String) (comment : String) (now : Nat) :
    Store × Except ErrKind Request :=
  match getRequest store reqId with
  | none => (store, .error .requestNotFound)
  | some request =>
    match computeAction env request user action comment now with
    | .error e => (store, .error e)
    | .ok d =>
      let effects := actionEffects env request user action comment d
      let store1 := updateRequest store reqId d
      ({ store1 with
         timeline := store1.timeline ++ effects.timeline
         notifications := store1.notifications ++ effects.notifications },
       .ok effects.updated)

/-- Two racing invocations of the action handler on the same record, in the
schedule where both `getRequest` reads happen against the initial store
before either `updateRequest` write lands.  Nothing in the source prevents
this schedule: the read and the write are separate unconditional storage
calls with no compare-and-swap or transaction around them. -/
def raceTwoActions (env : Env) (store : Store) (reqId : String)
    (u1 : UserT) (a1 c1 : String) (u2 : UserT) (a2 c2 : String) (now : Nat) :
    Except ErrKind UpdateData × Except ErrKind UpdateData × Store :=
  match getRequest store reqId with
  | none => (.error .requestNotFound, .error .requestNotFound, store)
  | some request =>
    let r1 := computeAction env request u1 a1 c1 now
    let r2 := computeAction env request u2 a2 c2 now
    let store1 := match r1 with
      | .ok d => updateRequest store reqId d
      | .error _ => store
    let store2 := match r2 with
      | .ok d => updateRequest store1 reqId d
      | .error _ => store1
    (r1, r2, store2)

/-! Concrete fixtures used by witnesses and counterexamples: a requestor, a
head of department, a dean, a registrar and a system administrator, one
department and a default three-stage workflow for generic requests. -/

def alice : UserT :=
  { id := "alice", role := ACADEMIC_STAFF, departmentId := some "d1", fullName := "Alice" }

def hod1 : UserT :=
  { id := "hod1", role := ADMIN_OFFICER, departmentId := some "d1", fullName := "Hod" }

def dean1 : UserT :=
  { id := "dean1", role := DEAN, faculty := some "Science", fullName := "Dean" }

def reg1 : UserT :=
  { id := "reg1", role := REGISTRAR, fullName := "Reg" }

def sys1 : UserT :=
  { id := "sys1", role := SYS_ADMIN, fullName := "Sys" }

def d1 : Department :=
  { id := "d1", name := "CS", faculty := some "Science", hodId := some "hod1" }

def cfg3 : WorkflowConfig :=
  { id := "w1", requestType := "generic", departmentId := none,
    stages := [{ role := ADMIN_OFFICER }, { role := DEAN }, { role := REGISTRAR }] }

def env1 : Env :=
  { users := [alice, hod1, dean1, reg1, sys1], departments := [d1], configs := [cfg3] }

def sub1 : Submission :=
  { requestType := "generic", title := "T", description := "D" }

/-- A pending request at stage 0 of `cfg3`, as `createRequest` produces it. -/
def req0 : Request :=
  { id := "r1", requestType := "generic", status := .pending, requestorId := "alice",
    departmentId := some "d1", currentApproverId := .idOf "hod1", workflowStage := 0 }

/-- Concrete outcome of hod1 approving req0 in env1: the request advances to
stage 1 with dean1 as approver. -/
def actRes1 : ActionResult :=
  actionEffects env1 req0 hod1 "approve" "ok"
    { status := .pending, currentApproverId := .idOf "dean1",
      workflowStage := 1, completedAt := none,
      timelineAction := "Request approved by Hod, forwarded to dean" }

/-- The terminal statuses named by the specification. -/
def TERMINAL : List ReqStatus := [.approved, .rejected, .cancelled, .completed]

/-- Concrete outcome of reg1 approving at the last stage of cfg3. -/
def actResFinal : ActionResult :=
  actionEffects env1 { req0 with workflowStage := 2, currentApproverId := .idOf "reg1" }
    reg1 "approve" ""
    { status := .approved, currentApproverId := .null,
      workflowStage := 2, completedAt := some 2,
      timelineAction := "Request fully approved" }

/-- An environment with no workflow configurations at all. -/
def envNoCfg : Env :=
  { users := [alice, hod1], departments := [d1], configs := [] }

/-- An already-approved request: terminal, with the approver slot null. -/
def reqDone : Request :=
  { req0 with
    status := .approved
    currentApproverId := .null
    completedAt := some 1 }

/-- The store holding only req0. -/
def store0 : Store := { requests := [req0], timeline := [], notifications := [] }

/-- A directory holding only the requestor and one system administrator. -/
def envC7 : Env :=
  { users := [alice, sys1], departments := [d1], configs := [] }

/-- The department d1 without a head of department. -/
def deptNoHod : Department := { d1 with hodId := none }

/-- Outcome of a concrete request_modification, with its two
notifications. -/
def actResRm : ActionResult :=
  actionEffects env1 req0 hod1 "request_modification" "fix"
    { status := .modificationRequested,
      currentApproverId := .idOf "alice",
      workflowStage := 0, completedAt := none,
      timelineAction := "Modification requested" }

/-- The update data both racing approvals of req0 compute from the same
stage-0 read. -/
def raceData : UpdateData :=
  { status := .pending, currentApproverId := .idOf "dean1",
    workflowStage := 1, completedAt := none,
    timelineAction := "Request approved by Hod, forwarded to dean" }

/-- A two-stage workflow whose second stage is the sys_admin role. -/
def cfgSys : WorkflowConfig :=
  { id := "w2", requestType := "generic", departmentId := none,
    stages := [{ role := ADMIN_OFFICER }, { role := SYS_ADMIN }] }

/-- env1 with the sys_admin-terminated workflow instead of cfg3. -/
def envSys : Env :=
  { users := [alice, hod1, sys1], departments := [d1], configs := [cfgSys] }

/-- Outcome of hod1 approving req0 into the sys_admin stage: the whole sys1
record, not its id, lands in the approver slot. -/
def actResSys : ActionResult :=
  actionEffects envSys req0 hod1 "approve" ""
    { status := .pending, currentApproverId := .userRec sys1,
      workflowStage := 1, completedAt := none,
      timelineAction := "Request approved by Hod, forwarded to sys_admin" }

/-- A single-stage workflow for generic requests. -/
def cfg1 : WorkflowConfig :=
  { id := "w9", requestType := "generic", departmentId := none,
    stages := [{ role := ADMIN_OFFICER }] }

/-- env1 with the single-stage workflow instead of cfg3. -/
def env1stage : Env :=
  { users := [alice, hod1], departments := [d1], configs := [cfg1] }

/-- Outcome of approving the sole stage of cfg1: immediate finalization. -/
def actResOne : ActionResult :=
  actionEffects env1stage req0 hod1 "approve" "fine"
    { status := .approved, currentApproverId := .null,
      workflowStage := 0, completedAt := some 9,
      timelineAction := "Request fully approved" }

/-! Helper lemmas. -/

/-- Truthiness excludes the null value. -/
theorem truthy_ne_null (a : ApproverVal) (h : a.truthy = true) : a ≠ .null := by
  cases a <;> simp [ApproverVal.truthy] at h ⊢

/-- The id-or-null lift never produces a user record. -/
theorem idOrNull_cases (o : Option UserT) :
    idOrNull o = .null ∨ ∃ s, idOrNull o = .idOf s := by
  cases o with
  | none => exact Or.inl rfl
  | some u =>
    by_cases h : u.id = ""
    · exact Or.inl (by simp [idOrNull, h])
    · exact Or.inr ⟨u.id, by simp [idOrNull, h]⟩

/-- The id-or-null lift never produces a whole user record. -/
theorem idOrNull_ne_userRec (o : Option UserT) (u : UserT) :
    idOrNull o ≠ .userRec u := by
  cases o with
  | none => simp [idOrNull]
  | some v =>
    by_cases h : v.id = "" <;> simp [idOrNull, h]

/-- A user found by role lookup belongs to the directory. -/
theorem findUserByRole_mem {users : List UserT} {r : String} {u : UserT}
    (h : findUserByRole users r = some u) : u ∈ users :=
  List.mem_of_find?_eq_some h

/-- A user found by the role-and-faculty lookup belongs to the directory. -/
theorem getUserByRoleAndFaculty_mem {users : List UserT} {r : String}
    {f : Option String} {u : UserT}
    (h : getUserByRoleAndFaculty users r f = some u) : u ∈ users :=
  List.mem_of_find?_eq_some h

/-- When some user of the directory has a given role, the role lookup finds
one. -/
theorem findUserByRole_isSome {users : List UserT} {r : String}
    (h : users.any (fun u => u.role == r) = true) :
    ∃ u, findUserByRole users r = some u := by
  have : (users.find? (fun u => u.role == r)).isSome := by
    rw [List.find?_isSome]
    rcases List.any_eq_true.mp h with ⟨u, hu, hp⟩
    exact ⟨u, hu, hp⟩
  exact Option.isSome_iff_exists.mp this

/-- A successfully determined next approver is never null: the truthy value
is kept, and the fallback stores an id string. -/
theorem advanceApprover_ok_ne_null {env : Env} {request : Request}
    {nextStage : Stage} {a : ApproverVal}
    (h : advanceApprover env request nextStage = .ok a) : a ≠ .null := by
  unfold advanceApprover at h
  split at h
  · rename_i htr
    cases h
    exact truthy_ne_null _ htr
  · split at h
    · cases h
      simp
    · cases h

/-- Case analysis of every successful transition computation: a workflow
resolves for the request and the outcome is one of the four branches of the
switch, with the fields each branch writes. -/
theorem computeAction_ok_cases {env : Env} {request : Request} {user : UserT}
    {action comment : String} {now : Nat} {d : UpdateData}
    (h : computeAction env request user action comment now = .ok d) :
    ∃ w, resolveWorkflowFor env request = some w ∧ w.stages ≠ [] ∧
      ((d.status = .pending ∧ d.currentApproverId ≠ .null ∧
        d.workflowStage = request.workflowStage + 1 ∧
        d.workflowStage < w.stages.length) ∨
       (d.status = .approved ∧ d.currentApproverId = .null ∧
        d.completedAt = some now ∧ d.workflowStage = request.workflowStage) ∨
       (d.status = .rejected ∧ d.currentApproverId = .null ∧
        d.completedAt = some now ∧ d.workflowStage = request.workflowStage) ∨
       (d.status = .modificationRequested ∧
        d.currentApproverId = .idOf request.requestorId ∧
        d.workflowStage = request.workflowStage)) := by
  unfold computeAction at h
  split at h
  · cases h
  split at h
  · cases h
  split at h
  · cases h
  split at h
  · cases h
  split at h
  · cases h
  rename_i w hw
  refine ⟨w, by simpa [resolveWorkflowFor, requestorDeptOf] using hw, ?_, ?_⟩
  · split at h
    · cases h
    rename_i hne
    simpa [List.isEmpty_iff] using hne
  split at h
  · cases h
  split at h
  · -- approve branch
    split at h
    · rename_i nextStage hidx
      have hlt : request.workflowStage + 1 < w.stages.length := by
        by_contra hge
        rw [List.getElem?_eq_none (by omega)] at hidx
        cases hidx
      split at h
      · cases h
      rename_i a ha
      cases h
      exact Or.inl ⟨rfl, advanceApprover_ok_ne_null ha, rfl, hlt⟩
    · cases h
      exact Or.inr (Or.inl ⟨rfl, rfl, rfl, rfl⟩)
  split at h
  · cases h
    exact Or.inr (Or.inr (Or.inl ⟨rfl, rfl, rfl, rfl⟩))
  · cases h
    exact Or.inr (Or.inr (Or.inr ⟨rfl, rfl, rfl⟩))

/-- Shape of every successfully created request: status pending, stage 0, a
string id in the approver slot, and a workflow with at least one stage that
re-resolves for the created record exactly as it did at creation. -/
theorem createRequest_ok_shape {env : Env} {user : UserT} {sub : Submission}
    {newId : String} {now : Nat} {res : CreateResult}
    (h : createRequest env user sub newId now = .ok res) :
    res.request.status = .pending ∧
    (∃ s, res.request.currentApproverId = .idOf s) ∧
    res.request.workflowStage = 0 ∧
    res.request.requestorId = user.id ∧
    res.request.departmentId = user.departmentId ∧
    res.request.submittedAt = some now ∧
    res.timeline.length = 1 ∧
    ∃ w, resolveWorkflowFor env res.request = some w ∧ 0 < w.stages.length := by
  unfold createRequest at h
  split at h
  · cases h
  split at h
  · cases h
  split at h
  · cases h
  split at h
  · cases h
  rename_i department hdept
  split at h
  · cases h
  rename_i w hw
  split at h
  · cases h
  rename_i firstStage rest hstages
  split at h
  case _ approverId happ =>
    split at h
    · cases h
    cases h
    refine ⟨rfl, ⟨approverId, rfl⟩, rfl, rfl, rfl, rfl, rfl, w, ?_, ?_⟩
    · simp only [resolveWorkflowFor, requestorDeptOf]
      rw [hdept]
      simpa using hw
    · simp [hstages]
  case _ hne =>
    cases h

/-- Successful actions factor through the transition computation followed by
the side-effect assembly. -/
theorem applyAction_ok_iff {env : Env} {request : Request} {user : UserT}
    {action comment : String} {now : Nat} {res : ActionResult} :
    applyAction env request user action comment now = .ok res ↔
      ∃ d, computeAction env request user action comment now = .ok d ∧
        res = actionEffects env request user action comment d := by
  unfold applyAction
  cases hc : computeAction env request user action comment now with
  | error e => simp
  | ok d =>
    constructor
    · intro h
      cases h
      exact ⟨d, rfl, rfl⟩
    · rintro ⟨d2, hd2, hres⟩
      cases hd2
      rw [hres]

/-! Claim theorems. -/

/-- C1: every request the engine produces or mutates (creation via POST
/api/requests and every applyAction transition) satisfies: whenever its
status is pending, its currentApproverId is non-null and its workflowStage
is a valid zero-based index into the stages of the workflow configuration
resolved for the request. -/
theorem C1_pending_invariant (env : Env) :
    (∀ (user : UserT) (sub : Submission) (newId : String) (now : Nat)
        (res : CreateResult),
      createRequest env user sub newId now = .ok res →
      res.request.status = .pending →
      res.request.currentApproverId ≠ .null ∧
      ∃ w, resolveWorkflowFor env res.request = some w ∧
        res.request.workflowStage < w.stages.length) ∧
    (∀ (request : Request) (user : UserT) (action comment : String)
        (now : Nat) (res : ActionResult),
      applyAction env request user action comment now = .ok res →
      res.updated.status = .pending →
      res.updated.currentApproverId ≠ .null ∧
      ∃ w, resolveWorkflowFor env res.updated = some w ∧
        res.updated.workflowStage < w.stages.length) := by
  constructor
  · intro user sub newId now res h _
    obtain ⟨_, ⟨s, hs⟩, hstage, _, _, _, _, w, hw, hlen⟩ := createRequest_ok_shape h
    exact ⟨by simp [hs], w, hw, by omega⟩
  · intro request user action comment now res h hp
    obtain ⟨d, hd, hres⟩ := applyAction_ok_iff.mp h
    obtain ⟨w, hw, _, hcases⟩ := computeAction_ok_cases hd
    have hupd : res.updated = applyUpdate request d := by
      rw [hres]; rfl
    have hfor : resolveWorkflowFor env res.updated = resolveWorkflowFor env request := by
      rw [hupd]; rfl
    rcases hcases with ⟨_, hnn, _, hlt⟩ | ⟨hst, _, _, _⟩ | ⟨hst, _, _, _⟩ | ⟨hst, _, _⟩
    · refine ⟨by simpa [hupd, applyUpdate] using hnn, w, by rw [hfor]; exact hw, ?_⟩
      simpa [hupd, applyUpdate] using hlt
    · rw [hupd] at hp; simp [applyUpdate, hst] at hp
    · rw [hupd] at hp; simp [applyUpdate, hst] at hp
    · rw [hupd] at hp; simp [applyUpdate, hst] at hp

/-- Witness for C1 at a concrete approval that advances req0 to stage 1. -/
theorem C1_pending_invariant_witness :
    actRes1.updated.currentApproverId ≠ ApproverVal.null := by
  have heq : applyAction env1 req0 hod1 "approve" "ok" 1 = .ok actRes1 := rfl
  exact ((C1_pending_invariant env1).2 req0 hod1 "approve" "ok" 1 actRes1 heq rfl).1

/-- C2: every request the engine writes (it never writes a request any other
way than through these two operations) that is in a terminal state has a
null currentApproverId.  Creation always writes status pending; of the
action branches only approve-final and reject reach a terminal status, and
both null the approver slot. -/
theorem C2_terminal_null_approver (env : Env) :
    (∀ (user : UserT) (sub : Submission) (newId : String) (now : Nat)
        (res : CreateResult),
      createRequest env user sub newId now = .ok res →
      res.request.status ∈ TERMINAL →
      res.request.currentApproverId = .null) ∧
    (∀ (request : Request) (user : UserT) (action comment : String)
        (now : Nat) (res : ActionResult),
      applyAction env request user action comment now = .ok res →
      res.updated.status ∈ TERMINAL →
      res.updated.currentApproverId = .null) := by
  constructor
  · intro user sub newId now res h hmem
    obtain ⟨hst, _⟩ := createRequest_ok_shape h
    rw [hst] at hmem
    simp [TERMINAL] at hmem
  · intro request user action comment now res h hmem
    obtain ⟨d, hd, hres⟩ := applyAction_ok_iff.mp h
    have hupd : res.updated = applyUpdate request d := by rw [hres]; rfl
    obtain ⟨w, _, _, hcases⟩ := computeAction_ok_cases hd
    rw [hupd] at hmem ⊢
    rcases hcases with ⟨hst, _, _, _⟩ | ⟨hst, hnull, _, _⟩ | ⟨hst, hnull, _, _⟩ | ⟨hst, _, _⟩
    · rw [show (applyUpdate request d).status = d.status from rfl, hst] at hmem
      simp [TERMINAL] at hmem
    · simpa [applyUpdate] using hnull
    · simpa [applyUpdate] using hnull
    · rw [show (applyUpdate request d).status = d.status from rfl, hst] at hmem
      simp [TERMINAL] at hmem

/-- Witness for C2 at a concrete final approval. -/
theorem C2_terminal_null_approver_witness :
    actResFinal.updated.currentApproverId = ApproverVal.null := by
  have heq : applyAction env1
      { req0 with workflowStage := 2, currentApproverId := .idOf "reg1" }
      reg1 "approve" "" 2 = .ok actResFinal := rfl
  exact (C2_terminal_null_approver env1).2 _ reg1 "approve" "" 2 actResFinal heq
    (by decide)

/-- C3: approving the last stage of an N-stage workflow (stage index N-1)
as the current approver yields exactly one transition to status approved,
with completedAt set and the approver slot cleared; and no further action
of any kind can succeed on the finalized request.  The boundary N = 1
(stage 0 of a single-stage workflow) is an instance: the witness below
exercises the general theorem, and N = 1 follows for any single-stage
configuration since only `w.stages.length` enters the hypotheses. -/
theorem C3_last_stage_approve (env : Env) (request : Request) (user : UserT)
    (comment : String) (now : Nat) (w : WorkflowConfig)
    (hw : resolveWorkflowFor env request = some w)
    (hstage : request.workflowStage + 1 = w.stages.length)
    (hp : request.status = .pending)
    (ha : approverMatches request.currentApproverId user.id = true) :
    ∃ res, applyAction env request user "approve" comment now = .ok res ∧
      res.updated.status = .approved ∧
      res.updated.completedAt = some now ∧
      res.updated.currentApproverId = .null ∧
      (∀ (user2 : UserT) (action2 comment2 : String) (now2 : Nat)
        (res2 : ActionResult),
        applyAction env res.updated user2 action2 comment2 now2 ≠ .ok res2) := by
  have hne : w.stages.isEmpty = false := by
    cases hs : w.stages with
    | nil => rw [hs] at hstage; simp at hstage
    | cons a l => rfl
  have hidx : w.stages[request.workflowStage + 1]? = none :=
    List.getElem?_eq_none (by omega)
  have h1 : (!ACTIONS.contains "approve") = false := rfl
  have h2 : (("approve" == "reject" || "approve" == "request_modification")
      && strBlank comment) = false := rfl
  have h3 : isTerminalChecked request.status = false := by rw [hp]; rfl
  have hwu : resolveWorkflow env request.requestType
      ((requestorDeptOf env request).map Department.id) = some w := hw
  have hd : computeAction env request user "approve" comment now =
      .ok { status := .approved, currentApproverId := .null,
            workflowStage := request.workflowStage, completedAt := some now,
            timelineAction := "Request fully approved" } := by
    unfold computeAction
    simp [h1, h2, h3, ha, hwu, hne, hidx, ACTIONS]
  refine ⟨actionEffects env request user "approve" comment
      { status := .approved, currentApproverId := .null,
        workflowStage := request.workflowStage, completedAt := some now,
        timelineAction := "Request fully approved" },
    applyAction_ok_iff.mpr ⟨_, hd, rfl⟩, rfl, rfl, rfl, ?_⟩
  intro user2 action2 comment2 now2 res2 hok
  obtain ⟨d2, hd2, _⟩ := applyAction_ok_iff.mp hok
  unfold computeAction at hd2
  split at hd2
  · cases hd2
  split at hd2
  · cases hd2
  split at hd2
  · cases hd2
  rename_i hterm
  exact hterm rfl

/-- Witness for C3: the single-stage workflow cfg1 approved at its sole
stage (the N = 1 boundary). -/
theorem C3_last_stage_approve_witness :
    applyAction env1stage req0 hod1 "approve" "fine" 9 = .ok actResOne ∧
    actResOne.updated.status = .approved ∧
    actResOne.updated.completedAt = some 9 ∧
    actResOne.updated.currentApproverId = .null := by
  obtain ⟨res, h1, h2, h3, h4, _⟩ := C3_last_stage_approve env1stage req0 hod1
    "fine" 9 cfg1 (by rfl) (by rfl) (by rfl) (by rfl)
  have he : applyAction env1stage req0 hod1 "approve" "fine" 9 = .ok actResOne := rfl
  have hres : res = actResOne := (Except.ok.injEq _ _).mp (h1.symm.trans he)
  exact ⟨he, hres ▸ h2, hres ▸ h3, hres ▸ h4⟩

/-- C4 counterexample: req0 is non-terminal, hod1 is its current approver
and the comment is non-empty, yet `request_modification` does not set
modification_requested — it fails with NoWorkflowConfigured, because the
handler resolves the workflow before every action (routes.ts:1623-1631),
not only before approve as the claim assumes. -/
theorem C4_counterexample :
    req0.status = ReqStatus.pending ∧
    approverMatches req0.currentApproverId hod1.id = true ∧
    strBlank "please fix" = false ∧
    applyAction envNoCfg req0 hod1 "request_modification" "please fix" 0 =
      .error .noWorkflowConfigured :=
  ⟨rfl, rfl, rfl, rfl⟩

/-- C4 as amended: under the additional proviso that a workflow
configuration with a non-empty stage list still resolves for the request,
`request_modification` with a non-empty comment by the current approver
sets status modification_requested, routes the approver slot back to the
requestor, and leaves the stage pointer unchanged. -/
theorem C4_modification_routing (env : Env) (request : Request)
    (user : UserT) (comment : String) (now : Nat) (w : WorkflowConfig)
    (hterm : request.status ∉ TERMINAL)
    (ha : approverMatches request.currentApproverId user.id = true)
    (hc : strBlank comment = false)
    (hw : resolveWorkflowFor env request = some w)
    (hne : w.stages ≠ []) :
    ∃ res, applyAction env request user "request_modification" comment now = .ok res ∧
      res.updated.status = .modificationRequested ∧
      res.updated.currentApproverId = .idOf request.requestorId ∧
      res.updated.workflowStage = request.workflowStage := by
  have h1 : (!ACTIONS.contains "request_modification") = false := rfl
  have h2 : (("request_modification" == "reject"
      || "request_modification" == "request_modification")
      && strBlank comment) = false := by
    simpa using hc
  have h3 : isTerminalChecked request.status = false := by
    cases hst : request.status
    all_goals first
      | rfl
      | (exfalso; rw [hst] at hterm; simp [TERMINAL] at hterm)
  have hneb : w.stages.isEmpty = false := by
    cases hs : w.stages with
    | nil => exact absurd hs hne
    | cons a l => rfl
  have hwu : resolveWorkflow env request.requestType
      ((requestorDeptOf env request).map Department.id) = some w := hw
  have hd : computeAction env request user "request_modification" comment now =
      .ok { status := .modificationRequested,
            currentApproverId := .idOf request.requestorId,
            workflowStage := request.workflowStage, completedAt := none,
            timelineAction := "Modification requested" } := by
    unfold computeAction
    simp [h1, h2, h3, hc, ha, hwu, hneb, ACTIONS]
  exact ⟨actionEffects env request user "request_modification" comment
      { status := .modificationRequested,
        currentApproverId := .idOf request.requestorId,
        workflowStage := request.workflowStage, completedAt := none,
        timelineAction := "Modification requested" },
    applyAction_ok_iff.mpr ⟨_, hd, rfl⟩, rfl, rfl, rfl⟩

/-- Witness for the amended C4 at a concrete bounce-back in env1. -/
theorem C4_modification_routing_witness :
    applyAction env1 req0 hod1 "request_modification" "fix" 3 = .ok actResRm ∧
    actResRm.updated.status = .modificationRequested ∧
    actResRm.updated.currentApproverId = .idOf req0.requestorId ∧
    actResRm.updated.workflowStage = req0.workflowStage := by
  obtain ⟨res, h1, h2, h3, h4⟩ := C4_modification_routing env1 req0 hod1
    "fix" 3 cfg3 (by decide) (by rfl) (by rfl) (by rfl) (by decide)
  have he : applyAction env1 req0 hod1 "request_modification" "fix" 3 =
      .ok actResRm := rfl
  have hres : res = actResRm := (Except.ok.injEq _ _).mp (h1.symm.trans he)
  exact ⟨he, hres ▸ h2, hres ▸ h3, hres ▸ h4⟩

/-- C5 counterexample: for a user other than the current approver, the
handler does not always fail with the NotAuthorizedApprover error — the
already-processed check and the comment-requirement check run first
(routes.ts:1588-1601), so those errors are returned instead. -/
theorem C5_counterexample :
    approverMatches reqDone.currentApproverId dean1.id = false ∧
    applyAction env1 reqDone dean1 "approve" "" 0 = .error .alreadyFinalized ∧
    approverMatches req0.currentApproverId dean1.id = false ∧
    applyAction env1 req0 dean1 "reject" "" 0 = .error .commentRequired :=
  ⟨rfl, rfl, rfl, rfl⟩

/-- C5 as amended: a caller who is not the current approver always fails
and the store — hence the request record — is left completely unmodified;
the error is NotAuthorizedApprover provided the request is not already
finalized and the comment requirement for reject/request_modification is
met, since those two checks run first. -/
theorem C5_unauthorized_rejected (env : Env) (store : Store) (reqId : String)
    (request : Request) (user : UserT) (action comment : String) (now : Nat)
    (hfind : getRequest store reqId = some request)
    (hact : ACTIONS.contains action = true)
    (hc : ((action == "reject" || action == "request_modification")
      && strBlank comment) = false)
    (hterm : isTerminalChecked request.status = false)
    (hdiff : approverMatches request.currentApproverId user.id = false) :
    handleAction env store reqId user action comment now =
      (store, .error .notAuthorizedApprover) := by
  have hmem : action ∈ ACTIONS := by simpa using hact
  have hcomp : computeAction env request user action comment now =
      .error .notAuthorizedApprover := by
    unfold computeAction
    simp [hmem, hc, hterm, hdiff]
  simp [handleAction, hfind, hcomp]

/-- Witness for the amended C5: dean1 is not the approver of req0. -/
theorem C5_unauthorized_rejected_witness :
    handleAction env1 store0 "r1" dean1 "approve" "x" 0 =
      (store0, .error .notAuthorizedApprover) :=
  C5_unauthorized_rejected env1 store0 "r1" req0 dean1 "approve" "x" 0
    rfl rfl rfl rfl rfl

/-- C6: when neither a department-specific nor a default workflow
configuration exists for the request type, or the resolved one has an empty
stage list, creation fails with NoWorkflowConfigured and the store is
untouched — no request row, timeline entry or notification is written.  The
hypotheses mirror the preconditions of initiateRouting (valid type,
non-empty title and description, existing requestor department); the
type-specific payload checks run after the workflow check and therefore
need no hypothesis. -/
theorem C6_no_workflow_no_request (env : Env) (store : Store) (user : UserT)
    (sub : Submission) (newId : String) (now : Nat) (department : Department)
    (hty : REQUEST_TYPES.contains sub.requestType = true)
    (htitle : strBlank sub.title = false)
    (hdesc : strBlank sub.description = false)
    (hdept : user.departmentId.bind (getDepartment env) = some department)
    (hw : resolveWorkflow env sub.requestType (some department.id) = none ∨
      ∃ w, resolveWorkflow env sub.requestType (some department.id) = some w ∧
        w.stages = []) :
    handleCreate env store user sub newId now =
      (store, .error .noWorkflowConfigured) := by
  have hmem : sub.requestType ∈ REQUEST_TYPES := by simpa using hty
  have hcr : createRequest env user sub newId now = .error .noWorkflowConfigured := by
    unfold createRequest
    rcases hw with hnone | ⟨w, hsome, hnil⟩
    · simp [hmem, htitle, hdesc, hdept, hnone]
    · simp [hmem, htitle, hdesc, hdept, hsome, hnil]
  simp [handleCreate, hcr]

/-- Witness for C6: env without configurations rejects a valid submission
and leaves the store unchanged. -/
theorem C6_no_workflow_no_request_witness :
    handleCreate envNoCfg store0 alice sub1 "r2" 4 =
      (store0, .error .noWorkflowConfigured) :=
  C6_no_workflow_no_request envNoCfg store0 alice sub1 "r2" 4 d1
    rfl rfl rfl rfl (Or.inl rfl)

/-- C7 counterexample: a system administrator exists (sys1), yet resolution
still returns null — the initiation-time resolver has no sys-admin fallback
in its registrar branch (routes.ts:1449-1451), and `determineNextApprover`
has none in its admin_officer branch (routes.ts:920-922). -/
theorem C7_counterexample :
    envC7.users.any (fun u => u.role == SYS_ADMIN) = true ∧
    firstApproverId envC7 d1 REGISTRAR = .null ∧
    determineNextApprover envC7 ADMIN_OFFICER (some deptNoHod) = .null :=
  ⟨rfl, rfl, rfl⟩

/-- C7 as amended: the sys-admin fallback chain is complete only in
`determineNextApprover` (the stage-advancement resolver) and only outside
its admin_officer branch: for any other stage role, with a department
present and nonempty user ids, resolution returns a non-null approver
whenever at least one system administrator exists.  The admin_officer branch
and the entire initiation-time resolver can return null despite an existing
system administrator (see the counterexample). -/
theorem C7_fallback_sysadmin (env : Env) (dept : Department) (role : String)
    (hids : ∀ u ∈ env.users, u.id ≠ "")
    (hrole : role ≠ ADMIN_OFFICER)
    (hsys : env.users.any (fun u => u.role == SYS_ADMIN) = true) :
    determineNextApprover env role (some dept) ≠ .null := by
  obtain ⟨su, hsu⟩ := findUserByRole_isSome hsys
  have hsune : su.id ≠ "" := hids su (findUserByRole_mem hsu)
  have hra : (role == ADMIN_OFFICER) = false := beq_eq_false_iff_ne.mpr hrole
  unfold determineNextApprover
  cases hdean : role == DEAN with
  | true =>
    cases hfac : getUserByRoleAndFaculty env.users DEAN dept.faculty with
    | some du =>
      have hdu := hids du (getUserByRoleAndFaculty_mem hfac)
      simp [hra, hdean, hfac, idOrNull, hdu]
    | none =>
      cases hd2 : findUserByRole env.users DEAN with
      | some du =>
        have hdu := hids du (findUserByRole_mem hd2)
        simp [hra, hdean, hfac, hd2, idOrNull, hdu]
      | none =>
        simp [hra, hdean, hfac, hd2, hsu, idOrNull, hsune]
  | false =>
    cases hreg : role == REGISTRAR with
    | true =>
      cases hr2 : findUserByRole env.users REGISTRAR with
      | some ru =>
        have hru := hids ru (findUserByRole_mem hr2)
        simp [hra, hdean, hreg, hr2, idOrNull, hru]
      | none =>
        simp [hra, hdean, hreg, hr2, hsu, idOrNull, hsune]
    | false =>
      cases hsa : role == SYS_ADMIN with
      | true => simp [hra, hdean, hreg, hsa, hsu]
      | false => simp [hra, hdean, hreg, hsa, hsu, idOrNull, hsune]

/-- Witness for the amended C7: dean resolution in env1 is non-null. -/
theorem C7_fallback_sysadmin_witness :
    determineNextApprover env1 DEAN (some d1) ≠ ApproverVal.null :=
  C7_fallback_sysadmin env1 d1 DEAN (by decide) (by decide) rfl

/-- C8 counterexample: hod1 approving req0 advances it to another pending
stage with dean1 as the next approver, yet the single notification created
goes to the requestor alice, not to dean1 (routes.ts:1727-1734 always
notifies `request.requestorId`). -/
theorem C8_counterexample :
    applyAction env1 req0 hod1 "approve" "ok" 1 = .ok actRes1 ∧
    actRes1.updated.status = ReqStatus.pending ∧
    actRes1.updated.currentApproverId = .idOf dean1.id ∧
    req0.requestorId ≠ dean1.id ∧
    actRes1.notifications.map Notification.userId = [req0.requestorId] :=
  ⟨rfl, rfl, rfl, by decide, rfl⟩

/-- C8 as amended: every successful action appends exactly one timeline
entry and creates exactly one notification whose recipient is always the
requestor (provided the requestor record exists) — never the next approver,
even when the request advances to another pending stage — plus the
bounce-back notification to the acting approver exactly in the
request_modification case. -/
theorem C8_side_effects (env : Env) (request : Request) (user : UserT)
    (action comment : String) (now : Nat) (res : ActionResult)
    (h : applyAction env request user action comment now = .ok res)
    (hreq : (getUser env request.requestorId).isSome = true) :
    res.timeline.length = 1 ∧
    res.notifications.map Notification.userId =
      (if action == "request_modification"
       then [request.requestorId, user.id]
       else [request.requestorId]) := by
  obtain ⟨d, _, hres⟩ := applyAction_ok_iff.mp h
  obtain ⟨ru, hru⟩ := Option.isSome_iff_exists.mp hreq
  subst hres
  unfold actionEffects
  cases hm : action == "request_modification" <;> simp [hru, hm]

/-- Witness for the amended C8 at a concrete request_modification. -/
theorem C8_side_effects_witness :
    actResRm.timeline.length = 1 ∧
    actResRm.notifications.map Notification.userId = ["alice", "hod1"] := by
  have heq : applyAction env1 req0 hod1 "request_modification" "fix" 3 =
      .ok actResRm := rfl
  have h := C8_side_effects env1 req0 hod1 "request_modification" "fix" 3
    actResRm heq rfl
  simpa using h

/-- C9: two racing invocations of the action handler on the same pending
stage-0 record (the same approver double-submitting approve, the schedule
where both reads precede both writes) BOTH report success — the source has
no ConcurrentModification error kind at all (see `ErrKind`), and
`updateRequest` is an unconditional findByIdAndUpdate keyed on the id only,
so neither invocation can detect the other. -/
theorem C9_race_double_success :
    (raceTwoActions env1 store0 "r1" hod1 "approve" "" hod1 "approve" "" 7).1 =
      .ok raceData ∧
    (raceTwoActions env1 store0 "r1" hod1 "approve" "" hod1 "approve" "" 7).2.1 =
      .ok raceData :=
  ⟨rfl, rfl⟩

/-- In the sys_admin branch the resolver hands the looked-up user document
through unchanged (routes.ts:944-946 has no `.id` projection). -/
theorem determineNextApprover_sysadmin (env : Env) (dept : Department) :
    determineNextApprover env SYS_ADMIN (some dept) =
      (match findUserByRole env.users SYS_ADMIN with
       | some u => ApproverVal.userRec u
       | none => ApproverVal.null) := rfl

/-- C10: the sys_admin branch of `determineNextApprover` returns the whole
user record found by `findUserByRole` (or null for JavaScript undefined when
none exists) instead of the id string of that user; every other role branch
returns an id string or null; and consequently a request approved into a
sys_admin stage (with the snapshotted department present and a sys admin in
the directory) stores the user record from the resolver — not an id string — in
currentApproverId. -/
theorem C10_sysadmin_record_passthrough (env : Env) :
    (∀ dept : Department,
      determineNextApprover env SYS_ADMIN (some dept) =
        (match findUserByRole env.users SYS_ADMIN with
         | some u => ApproverVal.userRec u
         | none => ApproverVal.null)) ∧
    (∀ (role : String), role ≠ SYS_ADMIN → ∀ (dept : Option Department)
        (u : UserT),
      determineNextApprover env role dept ≠ .userRec u) ∧
    (∀ (request : Request) (user : UserT) (comment : String) (now : Nat)
        (w : WorkflowConfig) (st : Stage) (dept : Department) (u : UserT),
      isTerminalChecked request.status = false →
      approverMatches request.currentApproverId user.id = true →
      requestorDeptOf env request = some dept →
      resolveWorkflowFor env request = some w →
      w.stages[request.workflowStage + 1]? = some st →
      st.role = SYS_ADMIN →
      findUserByRole env.users SYS_ADMIN = some u →
      ∃ res, applyAction env request user "approve" comment now = .ok res ∧
        res.updated.currentApproverId = .userRec u) := by
  refine ⟨determineNextApprover_sysadmin env, ?_, ?_⟩
  · intro role hrole dept u
    cases dept with
    | none => simp [determineNextApprover]
    | some d =>
      unfold determineNextApprover
      have hsa : (role == SYS_ADMIN) = false := beq_eq_false_iff_ne.mpr hrole
      cases ha : role == ADMIN_OFFICER with
      | true =>
        cases hh : d.hodId with
        | some h =>
          cases hhe : h == "" with
          | true =>
            simp only [ha, hh, hhe, if_true]
            exact idOrNull_ne_userRec _ u
          | false => simp [ha, hh, hhe]
        | none =>
          simp only [ha, hh, if_true]
          exact idOrNull_ne_userRec _ u
      | false =>
        cases hd : role == DEAN with
        | true =>
          simp only [ha, hd, Bool.false_eq_true, if_false, if_true]
          exact idOrNull_ne_userRec _ u
        | false =>
          cases hr : role == REGISTRAR with
          | true =>
            simp only [ha, hd, hr, Bool.false_eq_true, if_false, if_true]
            exact idOrNull_ne_userRec _ u
          | false =>
            simp only [ha, hd, hr, hsa, Bool.false_eq_true, if_false]
            exact idOrNull_ne_userRec _ u
  · intro request user comment now w st dept u hterm ha hdept hw hidx hst hsu
    have hlt : request.workflowStage + 1 < w.stages.length := by
      by_contra hge
      rw [List.getElem?_eq_none (by omega)] at hidx
      cases hidx
    have hneb : w.stages.isEmpty = false := by
      cases hs : w.stages with
      | nil => rw [hs] at hlt; simp at hlt
      | cons a l => rfl
    have hda : determineNextApprover env st.role (requestorDeptOf env request) =
        .userRec u := by
      rw [hst, hdept, determineNextApprover_sysadmin env dept, hsu]
    have hadv : advanceApprover env request st = .ok (.userRec u) := by
      unfold advanceApprover
      rw [hda]
      rfl
    have h1 : (!ACTIONS.contains "approve") = false := rfl
    have h2 : (("approve" == "reject" || "approve" == "request_modification")
        && strBlank comment) = false := rfl
    have hwu : resolveWorkflow env request.requestType
        ((requestorDeptOf env request).map Department.id) = some w := hw
    have hd : computeAction env request user "approve" comment now =
        .ok { status := .pending, currentApproverId := .userRec u,
              workflowStage := request.workflowStage + 1, completedAt := none,
              timelineAction := "Request approved by " ++ user.fullName ++
                ", forwarded to " ++ st.role } := by
      unfold computeAction
      simp [h1, h2, hterm, ha, hwu, hneb, hidx, hadv, ACTIONS]
    exact ⟨actionEffects env request user "approve" comment
        { status := .pending, currentApproverId := .userRec u,
          workflowStage := request.workflowStage + 1, completedAt := none,
          timelineAction := "Request approved by " ++ user.fullName ++
            ", forwarded to " ++ st.role },
      applyAction_ok_iff.mpr ⟨_, hd, rfl⟩, rfl⟩

/-- Witness for C10 at a concrete advancement into a sys_admin stage. -/
theorem C10_sysadmin_record_passthrough_witness :
    applyAction envSys req0 hod1 "approve" "" 6 = .ok actResSys ∧
    actResSys.updated.currentApproverId = ApproverVal.userRec sys1 := by
  obtain ⟨res, h1, h2⟩ := (C10_sysadmin_record_passthrough envSys).2.2
    req0 hod1 "" 6 cfgSys { role := SYS_ADMIN, label := "" } d1 sys1
    rfl rfl rfl rfl rfl rfl rfl
  have he : applyAction envSys req0 hod1 "approve" "" 6 = .ok actResSys := rfl
  have hres : res = actResSys := by
    have := h1.symm.trans he
    exact (Except.ok.injEq _ _).mp this
  exact ⟨he, hres ▸ h2⟩

end Asr
